import Mathlib

/-!
Verification of the episode-lifecycle orchestrator and multi-agent
start-state generator of `habitat/core/env.py` (class `Env`) against its
natural-language design specification.

The Python class is shallowly embedded: the mutable attributes of `Env`
become the fields of `EnvState`, each method becomes a pure function on
`EnvState` (fallible methods return `Except EnvError _`), wall-clock time
is passed in explicitly as a rational `now`, and the process-wide Python
RNG (`random` module) is a `Nat` field evolved by an explicit deterministic
transition.  Floating-point coordinates and timestamps are modelled as
rationals; the comparison `get_l2_distance(...) < 2` on nonnegative reals
is embedded sqrt-free as "squared distance < 4".
-/

/-- A 3-component position vector, as the Python list `start_position`
indexed by `[0]`, `[1]` (vertical), `[2]`. -/
structure Pos3 where
  p0 : ℚ
  p1 : ℚ
  p2 : ℚ
deriving DecidableEq

instance : Inhabited Pos3 := ⟨⟨0, 0, 0⟩⟩

/-- An episode record, keeping the attributes `env.py` reads:
`scene_id`, `start_position` and `start_rotation` (a quaternion stored as a
list of rationals). -/
structure Episode where
  sceneId : String
  startPosition : Pos3
  startRotation : List ℚ
deriving DecidableEq

instance : Inhabited Episode := ⟨⟨"", ⟨0, 0, 0⟩, []⟩⟩

/-- The configuration fields of `env.py` that the lifecycle code reads:
`ENVIRONMENT.MAX_EPISODE_STEPS`, `ENVIRONMENT.MAX_EPISODE_SECONDS`,
`SIMULATOR.NUM_AGENTS`, `SEED`, `DATASET.USE_SAME_SCENE`,
`SIMULATOR.USE_FIXED_START_POS`, `SIMULATOR.USE_FULL_RAND_STATE`. -/
structure Config where
  maxEpisodeSteps : Nat
  maxEpisodeSeconds : Nat
  numAgents : Nat
  seed : Nat
  useSameScene : Bool
  useFixedStartPos : Bool
  useFullRandState : Bool
deriving DecidableEq

/-- Squared planar distance, embedding the external helper
`pose.get_l2_distance(x1, x2, y1, y2) = sqrt((x1-x2)^2 + (y1-y2)^2)`
(from `onpolicy.envs.habitat.utils.pose`, outside this repository) without
the square root: the source comparison `get_l2_distance(...) < 2` is
equivalent to `get_l2_distance_sq(...) < 4`. -/
def get_l2_distance_sq (x1 x2 y1 y2 : ℚ) : ℚ :=
  (x1 - x2) ^ 2 + (y1 - y2) ^ 2

/-- The pairwise-separation test of `Env.generate_state` (env.py:381-394):
for every `i` and every `j < n - i - 1` it compares the planar coordinates
`x = -position[2]`, `y = -position[0]` of agents `i` and `i+j+1`, and the
draw survives only when every such pair satisfies `get_l2_distance < 2`
(a pair at distance `>= 2` sets `generate_success = False`). -/
def sepCheck (ps : List Pos3) : Bool :=
  (List.range ps.length).all fun i =>
    (List.range (ps.length - i - 1)).all fun j =>
      decide (get_l2_distance_sq (-(ps.getD i default).p2) (-(ps.getD (i + j + 1) default).p2)
        (-(ps.getD i default).p0) (-(ps.getD (i + j + 1) default).p0) < 4)

/-- The same-floor test of `Env.generate_state` (env.py:379):
`len(np.unique(start_y)) == 1`, where `start_y` collects component `[1]`
of every sampled start position; the number of distinct values of a list
is the length of its deduplication. -/
def sameFloorOk (ps : List Pos3) : Bool :=
  (ps.map Pos3.p1).dedup.length == 1

/-- Acceptance predicate of one rejection-sampling iteration of
`Env.generate_state`: the draw is accepted when the same-floor test passes
and, unless `USE_FULL_RAND_STATE` is set, the pairwise-separation test
also passes. -/
def acceptDraw (useFullRandState : Bool) (d : List Episode) : Bool :=
  sameFloorOk (d.map Episode.startPosition) &&
    (useFullRandState || sepCheck (d.map Episode.startPosition))

/-- `Env.generate_state` (env.py:367-396).  The stream of candidate draws
produced by `random.sample(self.episodes, self.num_agents)` is abstracted
as an explicit list of draws (each of length `num_agents`); the function
returns the positions and rotations of the first accepted draw, and `none`
when the stream is exhausted (the Python loop would keep drawing). -/
def generate_state (useFullRandState : Bool) :
    List (List Episode) → Option (List Pos3 × List (List ℚ))
  | [] => none
  | d :: rest =>
    if acceptDraw useFullRandState d then
      some (d.map Episode.startPosition, d.map Episode.startRotation)
    else
      generate_state useFullRandState rest

/-- Errors surfaced by the lifecycle code (each corresponds to one of the
`assert`/out-of-range failures in `env.py`, with the names the design
specification gives them). -/
inductive EnvError where
  /-- `step` assert at env.py:325-327: episode start time is `None`. -/
  | StepBeforeReset
  /-- `step` assert at env.py:328-330: `_episode_over` is true. -/
  | EpisodeAlreadyOver
  /-- `step` assert at env.py:331-333: `_episode_force_changed` is true. -/
  | StaleEpisodeState
  /-- `reset` assert at env.py:271: the episodes list is empty. -/
  | EmptyEpisodeSet
  /-- `reconfigure` env.py:404-405: list index `load_num` out of range. -/
  | FixedPoseExhausted
  /-- `generate_state` env.py:370: `random.sample(self.episodes,
  self.num_agents)` raises `ValueError` ("Sample larger than population")
  when `num_agents` exceeds the number of episodes. -/
  | SampleLargerThanPopulation
  /-- `_elapsed_seconds` assert at env.py:230-232. -/
  | ElapsedBeforeStart
  /-- `episodes` setter assert at env.py:200-202: empty list assigned. -/
  | EmptyEpisodesAssignment
  /-- `episodes` setter assert at env.py:203-205: no dataset present. -/
  | NoDatasetAssignment
deriving DecidableEq

/-- Modelled from the spec: the episode cursor (`EpisodeIterator`, created
by `Dataset.get_episode_iterator` in `habitat/core/dataset.py`, which is
not under `src/`).  The spec describes it as a stateful, possibly-infinite
producer of episodes whose ordering is determined by the episode list and
the seed passed at creation; it is modelled as a seed-determined
permutation of the episode list consumed cyclically. -/
structure Cursor where
  order : List Episode
  pos : Nat
deriving DecidableEq

/-- Modelled from the spec: one `next(iterator)` call on the cursor —
produce the episode at the current cyclic position and advance. -/
def Cursor.next (c : Cursor) : Episode × Cursor :=
  (c.order.getD (c.pos % c.order.length) default, ⟨c.order, c.pos + 1⟩)

/-- Modelled from the spec: the seed-determined ordering the dataset's
cursor iterates over (a deterministic function of the episode list and the
seed, here a rotation of the list). -/
def shuffleBySeed (seed : Nat) (l : List Episode) : List Episode :=
  l.rotate (seed % (max l.length 1))

/-- `Env._setup_episode_iterator` (env.py:156-165): create a fresh cursor
over the dataset's episodes, seeded with `config.SEED`. -/
def setupEpisodeIterator (seed : Nat) (eps : List Episode) : Cursor :=
  ⟨shuffleBySeed seed eps, 0⟩

/-- Modelled from the spec: the deterministic state transition of the
process-wide Python RNG (`random` module), advanced whenever the lifecycle
code consumes randomness (`random.choice`). -/
def rngNext (n : Nat) : Nat :=
  (6364136223846793005 * n + 1442695040888963407) % 2 ^ 64

/-- The mutable attributes of the Python `Env` object:
`_config`, presence of `_dataset`, `_dataset.episodes`,
`_current_episode`, `_episode_iterator` (a cursor with empty `order`
stands for `None`), `_episode_from_iter_on_reset`,
`_episode_force_changed`, `_max_episode_seconds`, `_max_episode_steps`,
`_elapsed_steps`, `_episode_start_time`, `_episode_over`,
`fixed_start_position`, `fixed_start_rotation`, `load_num`, plus the
state of the process-wide Python RNG. -/
structure EnvState where
  config : Config
  hasDataset : Bool
  episodes : List Episode
  currentEpisode : Option Episode
  episodeIterator : Cursor
  episodeFromIterOnReset : Bool
  episodeForceChanged : Bool
  maxEpisodeSeconds : Nat
  maxEpisodeSteps : Nat
  elapsedSteps : Nat
  episodeStartTime : Option ℚ
  episodeOver : Bool
  fixedStartPosition : List (List Pos3)
  fixedStartRotation : List (List (List ℚ))
  loadNum : Nat
  pythonRandom : Nat
deriving DecidableEq

/-- `Env.__init__` (env.py:62-154), restricted to the state this core
mutates.  With a dataset, the constructor creates the cursor and assigns
`self.current_episode = next(self.episode_iterator)` (env.py:98) through
the property setter, which clears `_episode_from_iter_on_reset` and sets
`_episode_force_changed` (env.py:172-178); `_max_episode_steps` is
`MAX_EPISODE_STEPS * NUM_AGENTS` (env.py:133); `load_num` starts at 0
(env.py:154).  `rng0` is the ambient state of the process-wide RNG. -/
def Env.init (config : Config) (dataset : Option (List Episode))
    (fixedPos : List (List Pos3)) (fixedRot : List (List (List ℚ)))
    (rng0 : Nat) : EnvState :=
  match dataset with
  | some eps =>
    { config := config
      hasDataset := true
      episodes := eps
      currentEpisode := some (setupEpisodeIterator config.seed eps).next.1
      episodeIterator := (setupEpisodeIterator config.seed eps).next.2
      episodeFromIterOnReset := false
      episodeForceChanged := true
      maxEpisodeSeconds := config.maxEpisodeSeconds
      maxEpisodeSteps := config.maxEpisodeSteps * config.numAgents
      elapsedSteps := 0
      episodeStartTime := none
      episodeOver := false
      fixedStartPosition := fixedPos
      fixedStartRotation := fixedRot
      loadNum := 0
      pythonRandom := rng0 }
  | none =>
    { config := config
      hasDataset := false
      episodes := []
      currentEpisode := none
      episodeIterator := ⟨[], 0⟩
      episodeFromIterOnReset := true
      episodeForceChanged := false
      maxEpisodeSeconds := config.maxEpisodeSeconds
      maxEpisodeSteps := config.maxEpisodeSteps * config.numAgents
      elapsedSteps := 0
      episodeStartTime := none
      episodeOver := false
      fixedStartPosition := fixedPos
      fixedStartRotation := fixedRot
      loadNum := 0
      pythonRandom := rng0 }

/-- `Env.seed` (env.py:360-365): reseeds the process-wide RNG (plus numpy,
numba, the simulator and the task, which are external collaborators).  It
does not touch the episode iterator. -/
def Env.seed (s : EnvState) (v : Nat) : EnvState :=
  { s with pythonRandom := v }

/-- The `current_episode` property setter (env.py:172-178): pin an episode
directly; clears `_episode_from_iter_on_reset` and sets
`_episode_force_changed`. -/
def Env.setCurrentEpisode (s : EnvState) (e : Episode) : EnvState :=
  { s with currentEpisode := some e
           episodeFromIterOnReset := false
           episodeForceChanged := true }

/-- The `episode_iterator` property setter (env.py:184-188): replace the
cursor; sets `_episode_force_changed` and `_episode_from_iter_on_reset`. -/
def Env.setEpisodeIterator (s : EnvState) (c : Cursor) : EnvState :=
  { s with episodeIterator := c
           episodeForceChanged := true
           episodeFromIterOnReset := true }

/-- The `episodes` property setter (env.py:198-210): rejects an empty list
and a missing dataset, then installs the new list, a fresh cursor, clears
the current episode, and flags the state as force-changed. -/
def Env.setEpisodes (s : EnvState) (eps : List Episode) : Except EnvError EnvState :=
  if eps.isEmpty then
    .error .EmptyEpisodesAssignment
  else if !s.hasDataset then
    .error .NoDatasetAssignment
  else
    .ok { s with episodes := eps
                 episodeIterator := setupEpisodeIterator s.config.seed eps
                 currentEpisode := none
                 episodeForceChanged := true
                 episodeFromIterOnReset := true }

/-- `Env._elapsed_seconds` (env.py:228-233): asserts the truthiness of
`_episode_start_time` (both `None` and `0.0` fail the Python assert),
then returns `time.time() - self._episode_start_time`. -/
def Env.elapsedSeconds (s : EnvState) (now : ℚ) : Except EnvError ℚ :=
  match s.episodeStartTime with
  | none => .error .ElapsedBeforeStart
  | some t => if t = 0 then .error .ElapsedBeforeStart else .ok (now - t)

/-- `Env._past_limit` (env.py:238-245).  Python's `and` short-circuits, so
with `_max_episode_seconds == 0` the elapsed-seconds term is never
evaluated; `_past_limit` is only called from `step` after the start-time
assert, so the start time is present (`getD 0` is never the served case
there). -/
def Env.pastLimit (s : EnvState) (now : ℚ) : Bool :=
  (s.maxEpisodeSteps != 0 && decide (s.maxEpisodeSteps ≤ s.elapsedSteps)) ||
    (s.maxEpisodeSeconds != 0 &&
      decide ((s.maxEpisodeSeconds : ℚ) ≤ now - s.episodeStartTime.getD 0))

/-- `Env._reset_stats` (env.py:247-250). -/
def Env.resetStats (s : EnvState) (now : ℚ) : EnvState :=
  { s with episodeStartTime := some now
           elapsedSteps := 0
           episodeOver := false }

/-- `Env._update_step_stats` (env.py:301-310): bump the step counter, set
`_episode_over` from the task-active signal provided by the task layer,
force it when past the budget.  (The `step_taken` notification to the
cursor is a no-op in this model of the cursor.) -/
def Env.updateStepStats (s : EnvState) (isEpisodeActive : Bool) (now : ℚ) : EnvState :=
  let s1 := { s with elapsedSteps := s.elapsedSteps + 1, episodeOver := !isEpisodeActive }
  if Env.pastLimit s1 now then { s1 with episodeOver := true } else s1

/-- `Env.step` (env.py:312-352), restricted to lifecycle state: the three
asserts in source order, then the state update.  The observation returned
by the task layer is external and not modelled. -/
def Env.step (s : EnvState) (isEpisodeActive : Bool) (now : ℚ) : Except EnvError EnvState :=
  match s.episodeStartTime with
  | none => .error .StepBeforeReset
  | some _ =>
    if s.episodeOver then .error .EpisodeAlreadyOver
    else if s.episodeForceChanged then .error .StaleEpisodeState
    else .ok (Env.updateStepStats s isEpisodeActive now)

/-- Where `Env.reconfigure` obtained the start poses for the simulator:
either the fixed-pose tables at index `idx`, or a call to the
rejection-sampling generator `Env.generate_state`. -/
inductive PoseQuery where
  | table (idx : Nat) (positions : List Pos3) (rotations : List (List ℚ))
  | generator
deriving DecidableEq

/-- The pose-determination step of `Env.reconfigure` (env.py:398-416): in
fixed-pose mode read `fixed_start_position[load_num]` and
`fixed_start_rotation[load_num]` and increment `load_num` (a Python
`IndexError` when `load_num` is out of range); otherwise call
`Env.generate_state`.  On the generator branch, the first statement of
every loop iteration is `random.sample(self.episodes, self.num_agents)`
(env.py:370), which raises `ValueError` whenever `num_agents` exceeds the
episode count — that deterministic failure is modelled here.  Draw
contents are modelled separately in `generate_state`, so on success only
the source of the poses is tracked (the resulting simulator configuration
goes to external collaborators `task.overwrite_sim_config` /
`sim.reconfigure`); the `.ok` result describes the state once the
rejection-sampling loop returns — the loop is unbounded by design (spec
§9) and its termination on a given random stream is outside this state
model. -/
def Env.reconfigurePoses (s : EnvState) : Except EnvError (EnvState × PoseQuery) :=
  if s.config.useFixedStartPos then
    match s.fixedStartPosition.get? s.loadNum, s.fixedStartRotation.get? s.loadNum with
    | some p, some r => .ok ({ s with loadNum := s.loadNum + 1 }, .table s.loadNum p r)
    | _, _ => .error .FixedPoseExhausted
  else if s.episodes.length < s.config.numAgents then
    .error .SampleLargerThanPopulation
  else
    .ok (s, .generator)

/-- The cursor advance at env.py:265-269: if an iterator is present (an
empty `order` stands for `None`) and `_episode_from_iter_on_reset` holds,
take the next episode from it. -/
def Env.advanceIfFromIter (s : EnvState) : EnvState :=
  if !s.episodeIterator.order.isEmpty && s.episodeFromIterOnReset then
    { s with currentEpisode := some s.episodeIterator.next.1
             episodeIterator := s.episodeIterator.next.2 }
  else s

/-- The episode draw at env.py:272: `random.choice(self.episodes)` when
`USE_SAME_SCENE` is configured (consuming the process-wide RNG), otherwise
`next(self._episode_iterator)`. -/
def Env.pickEpisode (s : EnvState) : Episode × EnvState :=
  if s.config.useSameScene then
    (s.episodes.getD (s.pythonRandom % s.episodes.length) default,
     { s with pythonRandom := rngNext s.pythonRandom })
  else
    (s.episodeIterator.next.1, { s with episodeIterator := s.episodeIterator.next.2 })

/-- The flag updates at env.py:274-277, performed after the draw. -/
def Env.finishSelect (p : Episode × EnvState) : EnvState × Episode :=
  ({ p.2 with currentEpisode := some p.1
              episodeFromIterOnReset := true
              episodeForceChanged := false }, p.1)

/-- The episode-selection phase of `Env.reset` (env.py:252-279):
`_reset_stats`, the conditional cursor advance, the emptiness assert, and
the unconditional draw of env.py:272 with its flag updates.  (Clearing the
current episode's `_shortest_path_cache`, env.py:262-263, touches no state
modelled here.) -/
def Env.resetSelect (s : EnvState) (now : ℚ) : Except EnvError (EnvState × Episode) :=
  if (Env.advanceIfFromIter (Env.resetStats s now)).episodes.isEmpty then
    .error .EmptyEpisodeSet
  else
    .ok (Env.finishSelect (Env.pickEpisode (Env.advanceIfFromIter (Env.resetStats s now))))

/-- `Env.reset` (env.py:252-299), restricted to lifecycle state: episode
selection followed by `Env.reconfigure`'s pose determination; the
delegations to `task.reset` and the measurement layer are external.  The
selected episode and the pose source are returned alongside the state. -/
def Env.reset (s : EnvState) (now : ℚ) : Except EnvError (EnvState × Episode × PoseQuery) :=
  match Env.resetSelect s now with
  | .error err => .error err
  | .ok (s1, e) =>
    match Env.reconfigurePoses s1 with
    | .error err => .error err
    | .ok (s2, pq) => .ok (s2, e, pq)

/-- `n` consecutive `Env.step` calls, each with the task layer reporting
the episode still active (`isEpisodeActive`), at wall-clock time `now`. -/
def Env.iterSteps (s : EnvState) (isEpisodeActive : Bool) (now : ℚ) :
    Nat → Except EnvError EnvState
  | 0 => .ok s
  | n + 1 =>
    match Env.iterSteps s isEpisodeActive now n with
    | .error e => .error e
    | .ok s' => Env.step s' isEpisodeActive now

/-- The sequence of episodes selected by consecutive `Env.reset` calls at
the given wall-clock times (empty from the first failing reset on). -/
def Env.resetEpisodeSeq (s : EnvState) : List ℚ → List Episode
  | [] => []
  | t :: ts =>
    match Env.reset s t with
    | .error _ => []
    | .ok (s', e, _) => e :: Env.resetEpisodeSeq s' ts

def c1ea : Episode := ⟨"a", ⟨0, 0, 0⟩, [1, 0, 0, 0]⟩

def c1eb : Episode := ⟨"b", ⟨1, 0, 0⟩, [0, 1, 0, 0]⟩

def c2cfg : Config := ⟨1, 0, 2, 0, false, false, false⟩

def c2a : Episode := ⟨"a", ⟨0, 0, 0⟩, [1, 0, 0, 0]⟩

def c2b : Episode := ⟨"b", ⟨1, 0, 0⟩, [1, 0, 0, 0]⟩

/-- The concrete run refuting claim C2: construct the environment with
`MAX_EPISODE_STEPS = 1` and `NUM_AGENTS = 2` over the two-episode dataset
`[c2a, c2b]`, reset, then perform one successful step with the task still
active.  The input is feasible for the real code: `random.sample` draws 2
of 2 episodes, both on the same floor (`start_position[1] = 0`) and at
planar distance 1 < 2, so the rejection-sampling loop in
`Env.generate_state` accepts its very first draw and `reset()` returns. -/
def c2run : Except EnvError EnvState :=
  match Env.reset (Env.init c2cfg (some [c2a, c2b]) [] [] 0) 1 with
  | .error e => .error e
  | .ok (s1, _, _) => Env.step s1 true 1

/-- The `episode_over` flag observed after the run (`none` if any call
failed). -/
def c2over : Option Bool :=
  match c2run with
  | .ok s => some s.episodeOver
  | .error _ => none

def c2wcfg : Config := ⟨2, 0, 2, 0, false, false, false⟩

def c3a : Episode := ⟨"a", ⟨0, 0, 0⟩, [1, 0, 0, 0]⟩

def c3b : Episode := ⟨"b", ⟨1, 0, 1⟩, [1, 0, 0, 0]⟩

def c3p : Episode := ⟨"p", ⟨2, 0, 2⟩, [1, 0, 0, 0]⟩

def c3cfg : Config := ⟨5, 0, 2, 0, false, false, false⟩

/-- The episode `reset()` ends up with after pinning `c3p` (`none` if the
reset failed). -/
def c3selected : Option Episode :=
  match Env.reset (Env.setCurrentEpisode (Env.init c3cfg (some [c3a, c3b]) [] [] 0) c3p) 0 with
  | .ok (s', _, _) => s'.currentEpisode
  | .error _ => none

def c5s : EnvState :=
  { config := ⟨1, 0, 1, 0, false, false, false⟩
    hasDataset := true
    episodes := [⟨"e", ⟨0, 0, 0⟩, []⟩]
    currentEpisode := some ⟨"e", ⟨0, 0, 0⟩, []⟩
    episodeIterator := ⟨[⟨"e", ⟨0, 0, 0⟩, []⟩], 1⟩
    episodeFromIterOnReset := true
    episodeForceChanged := false
    maxEpisodeSeconds := 0
    maxEpisodeSteps := 1
    elapsedSteps := 0
    episodeStartTime := some 1
    episodeOver := false
    fixedStartPosition := []
    fixedStartRotation := []
    loadNum := 0
    pythonRandom := 0 }

def c6s : EnvState :=
  { config := ⟨1, 0, 1, 0, false, true, false⟩
    hasDataset := true
    episodes := [⟨"e", ⟨0, 0, 0⟩, []⟩]
    currentEpisode := some ⟨"e", ⟨0, 0, 0⟩, []⟩
    episodeIterator := ⟨[⟨"e", ⟨0, 0, 0⟩, []⟩], 1⟩
    episodeFromIterOnReset := true
    episodeForceChanged := false
    maxEpisodeSeconds := 0
    maxEpisodeSteps := 1
    elapsedSteps := 0
    episodeStartTime := none
    episodeOver := false
    fixedStartPosition := [[⟨0, 0, 0⟩], [⟨1, 0, 1⟩]]
    fixedStartRotation := [[[1, 0, 0, 0]], [[0, 1, 0, 0]]]
    loadNum := 0
    pythonRandom := 0 }

def c7cfg : Config := ⟨3, 0, 1, 1, false, false, false⟩

def c7d : List Episode := [⟨"x", ⟨0, 0, 0⟩, []⟩, ⟨"y", ⟨1, 0, 1⟩, []⟩]

def c8empty : EnvState :=
  { config := ⟨1, 0, 1, 0, false, false, false⟩
    hasDataset := false
    episodes := []
    currentEpisode := none
    episodeIterator := ⟨[], 0⟩
    episodeFromIterOnReset := true
    episodeForceChanged := false
    maxEpisodeSeconds := 0
    maxEpisodeSteps := 1
    elapsedSteps := 0
    episodeStartTime := none
    episodeOver := false
    fixedStartPosition := []
    fixedStartRotation := []
    loadNum := 0
    pythonRandom := 0 }

def c8e : Episode := ⟨"e", ⟨0, 0, 0⟩, []⟩

def c8full : EnvState :=
  { config := ⟨1, 0, 1, 0, false, false, false⟩
    hasDataset := true
    episodes := [c8e]
    currentEpisode := some c8e
    episodeIterator := ⟨[c8e], 1⟩
    episodeFromIterOnReset := true
    episodeForceChanged := false
    maxEpisodeSeconds := 0
    maxEpisodeSteps := 1
    elapsedSteps := 0
    episodeStartTime := none
    episodeOver := false
    fixedStartPosition := []
    fixedStartRotation := []
    loadNum := 0
    pythonRandom := 0 }

/-- Decidable equality for `Except` results, so witnesses can check
concrete runs by evaluation. -/
instance {ε α : Type} [DecidableEq ε] [DecidableEq α] : DecidableEq (Except ε α) := fun a b =>
  match a, b with
  | .ok x, .ok y =>
    if h : x = y then isTrue (by rw [h]) else isFalse (by simp [h])
  | .error x, .error y =>
    if h : x = y then isTrue (by rw [h]) else isFalse (by simp [h])
  | .ok _, .error _ => isFalse (by simp)
  | .error _, .ok _ => isFalse (by simp)

def c9e : Episode := ⟨"e", ⟨0, 0, 0⟩, []⟩

def c9s : EnvState :=
  { config := ⟨5, 0, 1, 0, false, false, false⟩
    hasDataset := true
    episodes := [c9e]
    currentEpisode := some c9e
    episodeIterator := ⟨[c9e], 1⟩
    episodeFromIterOnReset := false
    episodeForceChanged := true
    maxEpisodeSeconds := 0
    maxEpisodeSteps := 5
    elapsedSteps := 3
    episodeStartTime := none
    episodeOver := true
    fixedStartPosition := []
    fixedStartRotation := []
    loadNum := 0
    pythonRandom := 9 }

/-- The state `Env.reset c9s 1` produces (spelled out so the witness can
check it by evaluation). -/
def c9res : EnvState :=
  { config := ⟨5, 0, 1, 0, false, false, false⟩
    hasDataset := true
    episodes := [c9e]
    currentEpisode := some c9e
    episodeIterator := ⟨[c9e], 2⟩
    episodeFromIterOnReset := true
    episodeForceChanged := false
    maxEpisodeSeconds := 0
    maxEpisodeSteps := 5
    elapsedSteps := 0
    episodeStartTime := some 1
    episodeOver := false
    fixedStartPosition := []
    fixedStartRotation := []
    loadNum := 0
    pythonRandom := 9 }

def c10e : Episode := ⟨"n", ⟨1, 0, 1⟩, []⟩

lemma generate_state_some {u : Bool} {ds : List (List Episode)}
    {ps : List Pos3} {rs : List (List ℚ)}
    (h : generate_state u ds = some (ps, rs)) :
    ∃ d ∈ ds, acceptDraw u d = true ∧
      ps = d.map Episode.startPosition ∧ rs = d.map Episode.startRotation := by
  induction ds with
  | nil => simp [generate_state] at h
  | cons d rest ih =>
    by_cases hd : acceptDraw u d = true
    · refine ⟨d, by simp, hd, ?_⟩
      simp [generate_state, hd] at h
      exact ⟨h.1.symm, h.2.symm⟩
    · simp only [generate_state, hd, if_false, Bool.false_eq_true] at h
      obtain ⟨d', hmem, hacc, hps, hrs⟩ := ih h
      exact ⟨d', by simp [hmem], hacc, hps, hrs⟩

lemma sepCheck_pair {ps : List Pos3} (h : sepCheck ps = true)
    {i j : Nat} (hij : i < j) (hj : j < ps.length) :
    get_l2_distance_sq (-(ps.getD i default).p2) (-(ps.getD j default).p2)
      (-(ps.getD i default).p0) (-(ps.getD j default).p0) < 4 := by
  unfold sepCheck at h
  rw [List.all_eq_true] at h
  have hi : i ∈ List.range ps.length := List.mem_range.mpr (lt_trans hij hj)
  have h1 := h i hi
  rw [List.all_eq_true] at h1
  have hj' : j - i - 1 ∈ List.range (ps.length - i - 1) := by
    rw [List.mem_range]
    omega
  have h2 := h1 (j - i - 1) hj'
  rw [decide_eq_true_eq] at h2
  have : i + (j - i - 1) + 1 = j := by omega
  rwa [this] at h2

lemma dedup_length_one {l : List ℚ} (h : l.dedup.length = 1) :
    ∀ a ∈ l, ∀ b ∈ l, a = b := by
  rw [List.length_eq_one] at h
  obtain ⟨c, hc⟩ := h
  intro a ha b hb
  have ha' : a ∈ l.dedup := List.mem_dedup.mpr ha
  have hb' : b ∈ l.dedup := List.mem_dedup.mpr hb
  rw [hc, List.mem_singleton] at ha' hb'
  rw [ha', hb']

lemma advanceIfFromIter_episodes (s : EnvState) :
    (Env.advanceIfFromIter s).episodes = s.episodes := by
  unfold Env.advanceIfFromIter
  split <;> rfl

lemma resetSelect_empty (s : EnvState) (now : ℚ) (h : s.episodes = []) :
    Env.resetSelect s now = .error .EmptyEpisodeSet := by
  unfold Env.resetSelect
  rw [advanceIfFromIter_episodes, Env.resetStats, h]
  rfl

lemma resetSelect_ok (s : EnvState) (now : ℚ) (h : s.episodes ≠ []) :
    ∃ s' e, Env.resetSelect s now = .ok (s', e) ∧
      s'.config = s.config ∧
      s'.hasDataset = s.hasDataset ∧
      s'.episodes = s.episodes ∧
      s'.maxEpisodeSeconds = s.maxEpisodeSeconds ∧
      s'.maxEpisodeSteps = s.maxEpisodeSteps ∧
      s'.fixedStartPosition = s.fixedStartPosition ∧
      s'.fixedStartRotation = s.fixedStartRotation ∧
      s'.loadNum = s.loadNum ∧
      s'.episodeStartTime = some now ∧
      s'.elapsedSteps = 0 ∧
      s'.episodeOver = false ∧
      s'.episodeForceChanged = false ∧
      s'.episodeFromIterOnReset = true ∧
      s'.currentEpisode = some e := by
  have hne : s.episodes.isEmpty = false := by
    cases hx : s.episodes with
    | nil => exact absurd hx h
    | cons a l => rfl
  have hpres : (Env.advanceIfFromIter (Env.resetStats s now)).episodes = s.episodes := by
    rw [advanceIfFromIter_episodes]
    rfl
  unfold Env.resetSelect
  rw [hpres, hne]
  simp only [Bool.false_eq_true, if_false]
  refine ⟨(Env.finishSelect (Env.pickEpisode (Env.advanceIfFromIter (Env.resetStats s now)))).1,
    (Env.finishSelect (Env.pickEpisode (Env.advanceIfFromIter (Env.resetStats s now)))).2,
    rfl, ?_, ?_, ?_, ?_, ?_, ?_, ?_, ?_, ?_, ?_, ?_, ?_, ?_, ?_⟩ <;>
      (simp only [Env.finishSelect, Env.pickEpisode, Env.advanceIfFromIter, Env.resetStats];
        repeat' split) <;> rfl

lemma resetSelect_startTime {s : EnvState} {now : ℚ} {s1 : EnvState} {e : Episode}
    (h : Env.resetSelect s now = .ok (s1, e)) :
    s1.episodeStartTime = some now := by
  unfold Env.resetSelect at h
  split at h
  · exact absurd h (by simp)
  · rw [Except.ok.injEq] at h
    have h1 : s1 = (Env.finishSelect (Env.pickEpisode
        (Env.advanceIfFromIter (Env.resetStats s now)))).1 := by rw [h]
    rw [h1]
    simp only [Env.finishSelect, Env.pickEpisode, Env.advanceIfFromIter, Env.resetStats]
    repeat' split
    all_goals rfl

lemma reconfigurePoses_notFixed {s : EnvState} (h : s.config.useFixedStartPos = false)
    (hn : s.config.numAgents ≤ s.episodes.length) :
    Env.reconfigurePoses s = .ok (s, .generator) := by
  unfold Env.reconfigurePoses
  simp [h, Nat.not_lt.mpr hn]

lemma reconfigurePoses_fixed {s : EnvState} {p : List Pos3} {r : List (List ℚ)}
    (h : s.config.useFixedStartPos = true)
    (hp : s.fixedStartPosition.get? s.loadNum = some p)
    (hr : s.fixedStartRotation.get? s.loadNum = some r) :
    Env.reconfigurePoses s =
      .ok ({ s with loadNum := s.loadNum + 1 }, .table s.loadNum p r) := by
  unfold Env.reconfigurePoses
  rw [h, hp, hr]
  rfl

lemma reconfigurePoses_exhausted {s : EnvState}
    (h : s.config.useFixedStartPos = true)
    (hp : s.fixedStartPosition.get? s.loadNum = none) :
    Env.reconfigurePoses s = .error .FixedPoseExhausted := by
  unfold Env.reconfigurePoses
  rw [h, hp]
  simp

lemma reconfigurePoses_startTime {s s2 : EnvState} {pq : PoseQuery}
    (h : Env.reconfigurePoses s = .ok (s2, pq)) :
    s2.episodeStartTime = s.episodeStartTime := by
  unfold Env.reconfigurePoses at h
  split at h
  · split at h
    · rw [Except.ok.injEq] at h
      injection h with h1 h2
      subst h1
      rfl
    · exact absurd h (by simp)
  · split at h
    · exact absurd h (by simp)
    · rw [Except.ok.injEq] at h
      injection h with h1 h2
      subst h1
      rfl

lemma init_some_episodes (cfg : Config) (d : List Episode)
    (fp : List (List Pos3)) (fr : List (List (List ℚ))) (r0 : Nat) :
    (Env.init cfg (some d) fp fr r0).episodes = d := rfl

lemma init_some_config (cfg : Config) (d : List Episode)
    (fp : List (List Pos3)) (fr : List (List (List ℚ))) (r0 : Nat) :
    (Env.init cfg (some d) fp fr r0).config = cfg := rfl

lemma init_some_maxSteps (cfg : Config) (d : List Episode)
    (fp : List (List Pos3)) (fr : List (List (List ℚ))) (r0 : Nat) :
    (Env.init cfg (some d) fp fr r0).maxEpisodeSteps =
      cfg.maxEpisodeSteps * cfg.numAgents := rfl

lemma init_some_maxSeconds (cfg : Config) (d : List Episode)
    (fp : List (List Pos3)) (fr : List (List (List ℚ))) (r0 : Nat) :
    (Env.init cfg (some d) fp fr r0).maxEpisodeSeconds = cfg.maxEpisodeSeconds := rfl

lemma iterSteps_succ (s : EnvState) (a : Bool) (now : ℚ) (m : Nat) :
    Env.iterSteps s a now (m + 1) =
      match Env.iterSteps s a now m with
      | .error e => .error e
      | .ok s' => Env.step s' a now := rfl

lemma iterSteps_budget {s : EnvState} {M : Nat} {t now : ℚ}
    (hM : s.maxEpisodeSteps = M) (hM0 : 0 < M)
    (hsec : s.maxEpisodeSeconds = 0)
    (hst : s.episodeStartTime = some t)
    (h0 : s.elapsedSteps = 0)
    (hov : s.episodeOver = false)
    (hfc : s.episodeForceChanged = false) :
    ∀ m, m ≤ M → Env.iterSteps s true now m =
      .ok { s with elapsedSteps := m, episodeOver := decide (M ≤ m) } := by
  have hne : (M != 0) = true := by
    simp only [bne_iff_ne, ne_eq]
    omega
  intro m hm
  induction m with
  | zero =>
    rw [decide_eq_false (show ¬ M ≤ 0 from by omega)]
    show Except.ok s = _
    conv_rhs => rw [← h0, ← hov]
  | succ m ih =>
    rw [iterSteps_succ, ih (by omega), decide_eq_false (show ¬ M ≤ m from by omega)]
    by_cases hc : M ≤ m + 1 <;>
      simp [Env.step, Env.updateStepStats, Env.pastLimit, hst, hfc, hM, hsec, hc, hne]

/-- Claim C1, counterexample: with the minimum-separation check enabled
(`USE_FULL_RAND_STATE` false), `Env.generate_state` accepts a draw of two
distinct agents at planar distance 1 — squared planar distance 1, not
`≥ 4` — refuting "every pair of distinct agents has planar Euclidean
distance ≥ 2 distance units" at this input. -/
theorem C1_min_separation_counterexample :
    generate_state false [[c1ea, c1eb]] =
      some ([⟨0, 0, 0⟩, ⟨1, 0, 0⟩], [[1, 0, 0, 0], [0, 1, 0, 0]]) ∧
    ¬ (4 : ℚ) ≤ get_l2_distance_sq (-(Pos3.mk 0 0 0).p2) (-(Pos3.mk 1 0 0).p2)
        (-(Pos3.mk 0 0 0).p0) (-(Pos3.mk 1 0 0).p0) := by
  constructor
  · simp [generate_state, acceptDraw, sameFloorOk, sepCheck, c1ea, c1eb,
      get_l2_distance_sq, List.range_succ]
  · simp [get_l2_distance_sq]

/-- Claim C1, amended: for every output (positions, rotations) returned by
`Env.generate_state` with the minimum-separation check enabled
(`USE_FULL_RAND_STATE` false), every pair of distinct agents `i ≠ j` has
planar squared distance STRICTLY BELOW 4 (planar distance < 2 distance
units): the check at env.py:388-392 keeps a pair when
`get_l2_distance < 2` and rejects the draw when the distance is ≥ 2 —
the reverse direction of the claim. -/
theorem C1_min_separation_amended (ds : List (List Episode)) (ps : List Pos3)
    (rs : List (List ℚ)) (h : generate_state false ds = some (ps, rs))
    (i j : Nat) (hij : i < j) (hj : j < ps.length) :
    get_l2_distance_sq (-(ps.getD i default).p2) (-(ps.getD j default).p2)
      (-(ps.getD i default).p0) (-(ps.getD j default).p0) < 4 := by
  obtain ⟨d, _, hacc, hps, _⟩ := generate_state_some h
  unfold acceptDraw at hacc
  rw [Bool.and_eq_true, Bool.or_eq_true] at hacc
  rcases hacc with ⟨_, hfull | hsep⟩
  · exact absurd hfull (by simp)
  · subst hps
    exact sepCheck_pair hsep hij hj

theorem C1_min_separation_amended_witness :
    generate_state false [[c1ea, c1eb]] =
      some ([⟨0, 0, 0⟩, ⟨1, 0, 0⟩], [[1, 0, 0, 0], [0, 1, 0, 0]]) ∧
    get_l2_distance_sq (-(([⟨0, 0, 0⟩, ⟨1, 0, 0⟩] : List Pos3).getD 0 default).p2)
      (-(([⟨0, 0, 0⟩, ⟨1, 0, 0⟩] : List Pos3).getD 1 default).p2)
      (-(([⟨0, 0, 0⟩, ⟨1, 0, 0⟩] : List Pos3).getD 0 default).p0)
      (-(([⟨0, 0, 0⟩, ⟨1, 0, 0⟩] : List Pos3).getD 1 default).p0) < 4 :=
  ⟨by simp [generate_state, acceptDraw, sameFloorOk, sepCheck, c1ea, c1eb,
      get_l2_distance_sq, List.range_succ],
   C1_min_separation_amended [[c1ea, c1eb]] [⟨0, 0, 0⟩, ⟨1, 0, 0⟩]
      [[1, 0, 0, 0], [0, 1, 0, 0]]
      (by simp [generate_state, acceptDraw, sameFloorOk, sepCheck, c1ea, c1eb,
        get_l2_distance_sq, List.range_succ])
      0 1 (by omega) (by simp)⟩

/-- Claim C4: every output of `Env.generate_state` (with or without the
separation check) has all vertical coordinates (`start_position[1]`)
exactly equal, because env.py:379 accepts a draw only when
`len(np.unique(start_y)) == 1`. -/
theorem C4_same_floor (u : Bool) (ds : List (List Episode)) (ps : List Pos3)
    (rs : List (List ℚ)) (h : generate_state u ds = some (ps, rs)) :
    ∀ p ∈ ps, ∀ q ∈ ps, p.p1 = q.p1 := by
  obtain ⟨d, _, hacc, hps, _⟩ := generate_state_some h
  unfold acceptDraw at hacc
  rw [Bool.and_eq_true] at hacc
  have hfloor := hacc.1
  unfold sameFloorOk at hfloor
  rw [beq_iff_eq] at hfloor
  subst hps
  intro p hp q hq
  exact dedup_length_one hfloor p.p1 (List.mem_map_of_mem Pos3.p1 hp)
    q.p1 (List.mem_map_of_mem Pos3.p1 hq)

theorem C4_same_floor_witness :
    generate_state false [[c1ea, c1eb]] =
      some ([⟨0, 0, 0⟩, ⟨1, 0, 0⟩], [[1, 0, 0, 0], [0, 1, 0, 0]]) ∧
    ∀ p ∈ ([⟨0, 0, 0⟩, ⟨1, 0, 0⟩] : List Pos3),
      ∀ q ∈ ([⟨0, 0, 0⟩, ⟨1, 0, 0⟩] : List Pos3), p.p1 = q.p1 :=
  ⟨by simp [generate_state, acceptDraw, sameFloorOk, sepCheck, c1ea, c1eb,
      get_l2_distance_sq, List.range_succ],
   C4_same_floor false [[c1ea, c1eb]] [⟨0, 0, 0⟩, ⟨1, 0, 0⟩]
      [[1, 0, 0, 0], [0, 1, 0, 0]]
      (by simp [generate_state, acceptDraw, sameFloorOk, sepCheck, c1ea, c1eb,
        get_l2_distance_sq, List.range_succ])⟩

/-- Claim C2, counterexample: with `maxEpisodeSteps = 1` (k = 1),
`maxEpisodeSeconds = 0` and `numAgents = 2` over a feasible two-episode
dataset (2 episodes for 2 agents, same floor, planar distance 1 < 2, so
the real `random.sample` succeeds and the rejection loop accepts its first
draw), one successful `step()` after `reset()` does NOT end the episode
(`episode_over` is still false), because env.py:133 sets the internal
limit to `MAX_EPISODE_STEPS * NUM_AGENTS = 2`; so "exactly k successful
step() calls" fails for k = 1. -/
theorem C2_step_budget_counterexample :
    c2cfg.maxEpisodeSteps = 1 ∧ c2cfg.maxEpisodeSeconds = 0 ∧
    c2over = some false := by
  refine ⟨rfl, rfl, ?_⟩
  decide

/-- Claim C2, amended: with `maxEpisodeSteps = k > 0`, `numAgents = n > 0`
and `maxEpisodeSeconds = 0` (non-fixed-pose mode, and at least `n`
episodes in the dataset so the generator's `random.sample` at env.py:370
does not raise), after `reset()` exactly `k * n` successful `step()` calls
are needed before `episode_over` becomes true, the task reporting the
episode still active on every step: every shorter prefix of steps succeeds
with `episode_over` still false, and the `k * n`-th step sets it. -/
theorem C2_step_budget_amended (cfg : Config) (d : List Episode)
    (fp : List (List Pos3)) (fr : List (List (List ℚ))) (r0 : Nat) (t now : ℚ)
    (hk : 0 < cfg.maxEpisodeSteps) (hn : 0 < cfg.numAgents)
    (hsec : cfg.maxEpisodeSeconds = 0) (hfix : cfg.useFixedStartPos = false)
    (hd : d ≠ []) (hnum : cfg.numAgents ≤ d.length) :
    ∃ s1 e, Env.reset (Env.init cfg (some d) fp fr r0) t = .ok (s1, e, .generator) ∧
      (∀ m, m < cfg.maxEpisodeSteps * cfg.numAgents →
        ∃ s', Env.iterSteps s1 true now m = .ok s' ∧ s'.episodeOver = false) ∧
      (∃ s', Env.iterSteps s1 true now (cfg.maxEpisodeSteps * cfg.numAgents) = .ok s' ∧
        s'.episodeOver = true) := by
  obtain ⟨s1, e, hsel, hcfg, _, heps, hmsec, hmst, _, _, _, hstt, hstp, hov, hfc2, _, _⟩ :=
    resetSelect_ok (Env.init cfg (some d) fp fr r0) t
      (by rw [init_some_episodes]; exact hd)
  have hM : s1.maxEpisodeSteps = cfg.maxEpisodeSteps * cfg.numAgents := by
    rw [hmst, init_some_maxSteps]
  have hMsec : s1.maxEpisodeSeconds = 0 := by
    rw [hmsec, init_some_maxSeconds, hsec]
  have hfix1 : s1.config.useFixedStartPos = false := by
    rw [hcfg, init_some_config, hfix]
  have hnum1 : s1.config.numAgents ≤ s1.episodes.length := by
    rw [hcfg, heps, init_some_config, init_some_episodes]
    exact hnum
  have hM0 : 0 < cfg.maxEpisodeSteps * cfg.numAgents := Nat.mul_pos hk hn
  refine ⟨s1, e, ?_, ?_, ?_⟩
  · unfold Env.reset
    rw [hsel]
    simp only [reconfigurePoses_notFixed hfix1 hnum1]
  · intro m hm
    refine ⟨_, iterSteps_budget hM hM0 hMsec hstt hstp hov hfc2 m (by omega), ?_⟩
    exact decide_eq_false (by omega)
  · refine ⟨_, iterSteps_budget hM hM0 hMsec hstt hstp hov hfc2 _ le_rfl, ?_⟩
    exact decide_eq_true (by omega)

theorem C2_step_budget_amended_witness :
    0 < c2wcfg.maxEpisodeSteps ∧ 0 < c2wcfg.numAgents ∧
    c2wcfg.maxEpisodeSeconds = 0 ∧ c2wcfg.useFixedStartPos = false ∧
    ([c2a, c2b] : List Episode) ≠ [] ∧
    c2wcfg.numAgents ≤ ([c2a, c2b] : List Episode).length ∧
    (∃ s1 e, Env.reset (Env.init c2wcfg (some [c2a, c2b]) [] [] 0) 0 = .ok (s1, e, .generator) ∧
      (∀ m, m < c2wcfg.maxEpisodeSteps * c2wcfg.numAgents →
        ∃ s', Env.iterSteps s1 true 0 m = .ok s' ∧ s'.episodeOver = false) ∧
      (∃ s', Env.iterSteps s1 true 0 (c2wcfg.maxEpisodeSteps * c2wcfg.numAgents) = .ok s' ∧
        s'.episodeOver = true)) :=
  ⟨by decide, by decide, by decide, by decide, by decide, by decide,
   C2_step_budget_amended c2wcfg [c2a, c2b] [] [] 0 0 0
     (by decide) (by decide) (by decide) (by decide) (by decide) (by decide)⟩

/-- Claim C3 (code bug): pinning episode `c3p` through the
`current_episode` setter and then calling `reset()` does NOT keep the
pinned episode as the current episode — the unconditional draw at
env.py:272 overwrites it (here with `c3b`, the next cursor episode),
contradicting the setter's own comment at env.py:175-177 ("This allows the
current episode to be set here and then reset be called without the
episode changing") and the spec. -/
theorem C3_pin_ignored : c3selected = some c3b ∧ c3b ≠ c3p := by
  constructor
  · decide
  · decide

/-- Claim C5: `Env.step` fails with `StepBeforeReset` whenever no episode
start time is recorded (first assert, env.py:325-327); with a start time
recorded it fails with `EpisodeAlreadyOver` whenever `episode_over` is
true (second assert, env.py:328-330); and with a start time recorded and
the episode not over it fails with `StaleEpisodeState` whenever the
force-changed (dirty) flag is set (third assert, env.py:331-333) — in
particular, pinning a new current episode after a reset and then stepping
without an intervening reset fails with `StaleEpisodeState`. -/
theorem C5_step_error_conditions :
    (∀ (s : EnvState) (a : Bool) (now : ℚ), s.episodeStartTime = none →
      Env.step s a now = .error .StepBeforeReset) ∧
    (∀ (s : EnvState) (a : Bool) (now t : ℚ), s.episodeStartTime = some t →
      s.episodeOver = true → Env.step s a now = .error .EpisodeAlreadyOver) ∧
    (∀ (s : EnvState) (a : Bool) (now t : ℚ), s.episodeStartTime = some t →
      s.episodeOver = false → s.episodeForceChanged = true →
      Env.step s a now = .error .StaleEpisodeState) ∧
    (∀ (s : EnvState) (e : Episode) (a : Bool) (now t : ℚ),
      s.episodeStartTime = some t → s.episodeOver = false →
      Env.step (Env.setCurrentEpisode s e) a now = .error .StaleEpisodeState) := by
  refine ⟨?_, ?_, ?_, ?_⟩
  · intro s a now h
    simp [Env.step, h]
  · intro s a now t h hov
    simp [Env.step, h, hov]
  · intro s a now t h hov hfc
    simp [Env.step, h, hov, hfc]
  · intro s e a now t h hov
    simp [Env.step, Env.setCurrentEpisode, h, hov]

theorem C5_step_error_conditions_witness :
    ({ c5s with episodeStartTime := none } : EnvState).episodeStartTime = none ∧
    Env.step { c5s with episodeStartTime := none } true 2 = .error .StepBeforeReset ∧
    c5s.episodeStartTime = some 1 ∧ c5s.episodeOver = false ∧
    Env.step (Env.setCurrentEpisode c5s ⟨"f", ⟨1, 1, 1⟩, []⟩) true 2 =
      .error .StaleEpisodeState :=
  ⟨rfl,
   C5_step_error_conditions.1 { c5s with episodeStartTime := none } true 2 rfl,
   rfl, rfl,
   C5_step_error_conditions.2.2.2 c5s ⟨"f", ⟨1, 1, 1⟩, []⟩ true 2 1 rfl rfl⟩

/-- Claim C6: in fixed-pose mode (`USE_FIXED_START_POS` true) every
`reset()` obtains its poses by reading the fixed-pose tables at the
current `load_num` and incrementing it (env.py:403-406), so two
consecutive successful resets retrieve the strictly increasing table
indices `load_num` and `load_num + 1` and never answer from the
rejection-sampling generator; and the table read fails with
`FixedPoseExhausted` when `load_num` is out of the table's range. -/
theorem C6_fixed_pose (s : EnvState) (t t' : ℚ)
    (hfix : s.config.useFixedStartPos = true) :
    (∀ p r, s.fixedStartPosition.get? s.loadNum = some p →
      s.fixedStartRotation.get? s.loadNum = some r → s.episodes ≠ [] →
      ∃ s1 e1, Env.reset s t = .ok (s1, e1, .table s.loadNum p r) ∧
        s1.loadNum = s.loadNum + 1 ∧
        (PoseQuery.table s.loadNum p r ≠ .generator) ∧
        ∀ p' r', s1.fixedStartPosition.get? s1.loadNum = some p' →
          s1.fixedStartRotation.get? s1.loadNum = some r' →
          ∃ s2 e2, Env.reset s1 t' = .ok (s2, e2, .table (s.loadNum + 1) p' r') ∧
            s2.loadNum = s.loadNum + 2 ∧ s.loadNum < s.loadNum + 1) ∧
    (s.fixedStartPosition.get? s.loadNum = none → s.episodes ≠ [] →
      Env.reset s t = .error .FixedPoseExhausted) := by
  constructor
  · intro p r hp hr hne
    obtain ⟨s1', e, hsel, hcfg, _, heps, _, _, hfp, hfr, hln, _, _, _, _, _, _⟩ :=
      resetSelect_ok s t hne
    have hfix1 : s1'.config.useFixedStartPos = true := by rw [hcfg]; exact hfix
    have hp1 : s1'.fixedStartPosition.get? s1'.loadNum = some p := by
      rw [hfp, hln]; exact hp
    have hr1 : s1'.fixedStartRotation.get? s1'.loadNum = some r := by
      rw [hfr, hln]; exact hr
    have hrec := reconfigurePoses_fixed hfix1 hp1 hr1
    rw [hln] at hrec
    refine ⟨{ s1' with loadNum := s.loadNum + 1 }, e, ?_, rfl, by simp, ?_⟩
    · unfold Env.reset
      rw [hsel]
      simp only [hrec]
    · intro p' r' hp' hr'
      have hne2 : ({ s1' with loadNum := s.loadNum + 1 } : EnvState).episodes ≠ [] := by
        show s1'.episodes ≠ []
        rw [heps]; exact hne
      obtain ⟨s2', e2, hsel2, hcfg2, _, _, _, _, hfp2, hfr2, hln2, _, _, _, _, _, _⟩ :=
        resetSelect_ok { s1' with loadNum := s.loadNum + 1 } t' hne2
      have hfix2 : s2'.config.useFixedStartPos = true := by
        rw [hcfg2]; exact hfix1
      have hln2' : s2'.loadNum = s.loadNum + 1 := by rw [hln2]
      have hp2 : s2'.fixedStartPosition.get? s2'.loadNum = some p' := by
        rw [hfp2, hln2']; exact hp'
      have hr2 : s2'.fixedStartRotation.get? s2'.loadNum = some r' := by
        rw [hfr2, hln2']; exact hr'
      have hrec2 := reconfigurePoses_fixed hfix2 hp2 hr2
      rw [hln2'] at hrec2
      refine ⟨{ s2' with loadNum := s.loadNum + 1 + 1 }, e2, ?_, rfl, Nat.lt_succ_self _⟩
      unfold Env.reset
      rw [hsel2]
      simp only [hrec2]
  · intro hp hne
    obtain ⟨s1', e, hsel, hcfg, _, _, _, _, hfp, _, hln, _, _, _, _, _, _⟩ :=
      resetSelect_ok s t hne
    have hfix1 : s1'.config.useFixedStartPos = true := by rw [hcfg]; exact hfix
    have hp1 : s1'.fixedStartPosition.get? s1'.loadNum = none := by
      rw [hfp, hln]; exact hp
    have hrec := reconfigurePoses_exhausted hfix1 hp1
    unfold Env.reset
    rw [hsel]
    simp only [hrec]

theorem C6_fixed_pose_witness :
    c6s.config.useFixedStartPos = true ∧
    ((∀ p r, c6s.fixedStartPosition.get? c6s.loadNum = some p →
      c6s.fixedStartRotation.get? c6s.loadNum = some r → c6s.episodes ≠ [] →
      ∃ s1 e1, Env.reset c6s 0 = .ok (s1, e1, .table c6s.loadNum p r) ∧
        s1.loadNum = c6s.loadNum + 1 ∧
        (PoseQuery.table c6s.loadNum p r ≠ .generator) ∧
        ∀ p' r', s1.fixedStartPosition.get? s1.loadNum = some p' →
          s1.fixedStartRotation.get? s1.loadNum = some r' →
          ∃ s2 e2, Env.reset s1 1 = .ok (s2, e2, .table (c6s.loadNum + 1) p' r') ∧
            s2.loadNum = c6s.loadNum + 2 ∧ c6s.loadNum < c6s.loadNum + 1) ∧
    (c6s.fixedStartPosition.get? c6s.loadNum = none → c6s.episodes ≠ [] →
      Env.reset c6s 0 = .error .FixedPoseExhausted)) :=
  ⟨rfl, C6_fixed_pose c6s 0 1 rfl⟩

/-- Claim C7: two independent runs on identical dataset content (same
config, dataset and fixed-pose data, but arbitrary — possibly different —
ambient states `r1`, `r2` of the process-wide RNG), seeded with the same
value and then reset the same number of times with `useSameScene = false`,
select identical episode sequences: `Env.seed` deterministically resets
the RNG, and with `USE_SAME_SCENE` false episode selection reads only the
episode iterator, which is a deterministic function of the dataset and the
config seed. -/
theorem C7_seed_determinism (cfg : Config) (d : List Episode)
    (fp : List (List Pos3)) (fr : List (List (List ℚ)))
    (r1 r2 v : Nat) (ts : List ℚ)
    (_hscene : cfg.useSameScene = false) :
    Env.resetEpisodeSeq (Env.seed (Env.init cfg (some d) fp fr r1) v) ts =
      Env.resetEpisodeSeq (Env.seed (Env.init cfg (some d) fp fr r2) v) ts := by
  have h : Env.seed (Env.init cfg (some d) fp fr r1) v =
      Env.seed (Env.init cfg (some d) fp fr r2) v := rfl
  rw [h]

theorem C7_seed_determinism_witness :
    c7cfg.useSameScene = false ∧
    Env.resetEpisodeSeq (Env.seed (Env.init c7cfg (some c7d) [] [] 3) 42) [0, 1] =
      Env.resetEpisodeSeq (Env.seed (Env.init c7cfg (some c7d) [] [] 7) 42) [0, 1] :=
  ⟨rfl, C7_seed_determinism c7cfg c7d [] [] 3 7 42 [0, 1] rfl⟩

/-- Claim C8: `Env.reset` fails with `EmptyEpisodeSet` whenever the
episode collection is empty (the assert at env.py:271), and with a
non-empty collection the selection phase succeeds and installs a selected
episode as the current episode. -/
theorem C8_reset_empty_episodes (s : EnvState) (now : ℚ) :
    (s.episodes = [] → Env.reset s now = .error .EmptyEpisodeSet) ∧
    (s.episodes ≠ [] → ∃ s' e, Env.resetSelect s now = .ok (s', e) ∧
      s'.currentEpisode = some e) := by
  constructor
  · intro h
    unfold Env.reset
    rw [resetSelect_empty s now h]
  · intro h
    obtain ⟨s', e, hsel, _, _, _, _, _, _, _, _, _, _, _, _, _, hcur⟩ :=
      resetSelect_ok s now h
    exact ⟨s', e, hsel, hcur⟩

theorem C8_reset_empty_episodes_witness :
    c8empty.episodes = [] ∧
    Env.reset c8empty 0 = .error .EmptyEpisodeSet ∧
    c8full.episodes ≠ [] ∧
    (∃ s' e, Env.resetSelect c8full 0 = .ok (s', e) ∧ s'.currentEpisode = some e) :=
  ⟨rfl, (C8_reset_empty_episodes c8empty 0).1 rfl, by decide,
   (C8_reset_empty_episodes c8full 0).2 (by decide)⟩

/-- Claim C9: reading the elapsed-seconds accessor before any reset has
recorded an episode start time fails (the truthiness assert at
env.py:230-232) rather than returning a value; after a successful
`reset()` at wall-clock time `t0` (any positive timestamp) it returns
`now - t0`, the wall-clock time elapsed since that reset. -/
theorem C9_elapsed_seconds :
    (∀ (s : EnvState) (now : ℚ), s.episodeStartTime = none →
      Env.elapsedSeconds s now = .error .ElapsedBeforeStart) ∧
    (∀ (s : EnvState) (t0 now : ℚ) (s' : EnvState) (e : Episode) (pq : PoseQuery),
      0 < t0 → Env.reset s t0 = .ok (s', e, pq) →
      Env.elapsedSeconds s' now = .ok (now - t0)) := by
  constructor
  · intro s now h
    simp [Env.elapsedSeconds, h]
  · intro s t0 now s' e pq ht h
    unfold Env.reset at h
    split at h
    · exact absurd h (by simp)
    · rename_i s1 e1 heq1
      split at h
      · exact absurd h (by simp)
      · rename_i s2 pq2 heq2
        rw [Except.ok.injEq] at h
        injection h with h1 hrest
        subst h1
        simp only [Env.elapsedSeconds, reconfigurePoses_startTime heq2,
          resetSelect_startTime heq1]
        rw [if_neg (ne_of_gt ht)]

theorem C9_elapsed_seconds_witness :
    c9s.episodeStartTime = none ∧
    Env.elapsedSeconds c9s 5 = .error .ElapsedBeforeStart ∧
    (0 : ℚ) < 1 ∧
    Env.reset c9s 1 = .ok (c9res, c9e, .generator) ∧
    Env.elapsedSeconds c9res 5 = .ok (5 - 1) :=
  ⟨rfl,
   C9_elapsed_seconds.1 c9s 5 rfl,
   by decide,
   by decide,
   C9_elapsed_seconds.2 c9s 1 5 c9res c9e .generator (by decide) (by decide)⟩

/-- Claim C10: the `episodes` setter rejects an empty list and rejects any
assignment when no dataset is present (the asserts at env.py:200-205); on
a successful assignment the current episode is cleared, a fresh cursor
over the new list is installed, and the force-changed (stale) flag is set,
so every `step()` before the next `reset()` fails with one of the step
errors. -/
theorem C10_episodes_setter (s : EnvState) (eps : List Episode) :
    (eps = [] → Env.setEpisodes s eps = .error .EmptyEpisodesAssignment) ∧
    (eps ≠ [] → s.hasDataset = false →
      Env.setEpisodes s eps = .error .NoDatasetAssignment) ∧
    (eps ≠ [] → s.hasDataset = true →
      ∃ s', Env.setEpisodes s eps = .ok s' ∧ s'.episodes = eps ∧
        s'.currentEpisode = none ∧
        s'.episodeIterator = setupEpisodeIterator s.config.seed eps ∧
        s'.episodeForceChanged = true ∧ s'.episodeFromIterOnReset = true ∧
        ∀ (a : Bool) (now : ℚ), ∃ err, Env.step s' a now = .error err) := by
  have hne : eps ≠ [] → eps.isEmpty = false := fun h => by
    cases eps with
    | nil => exact absurd rfl h
    | cons a l => rfl
  refine ⟨?_, ?_, ?_⟩
  · intro h
    subst h
    rfl
  · intro h hds
    simp [Env.setEpisodes, hne h, hds]
  · intro h hds
    refine ⟨{ s with episodes := eps
                     episodeIterator := setupEpisodeIterator s.config.seed eps
                     currentEpisode := none
                     episodeForceChanged := true
                     episodeFromIterOnReset := true },
      ?_, rfl, rfl, rfl, rfl, rfl, ?_⟩
    · simp [Env.setEpisodes, hne h, hds]
    · intro a now
      cases hst : s.episodeStartTime with
      | none => exact ⟨.StepBeforeReset, by simp [Env.step, hst]⟩
      | some u =>
        cases hov : s.episodeOver with
        | true => exact ⟨.EpisodeAlreadyOver, by simp [Env.step, hst, hov]⟩
        | false => exact ⟨.StaleEpisodeState, by simp [Env.step, hst, hov]⟩

theorem C10_episodes_setter_witness :
    Env.setEpisodes c8full [] = .error .EmptyEpisodesAssignment ∧
    ([c10e] : List Episode) ≠ [] ∧ c8empty.hasDataset = false ∧
    Env.setEpisodes c8empty [c10e] = .error .NoDatasetAssignment ∧
    c8full.hasDataset = true ∧
    (∃ s', Env.setEpisodes c8full [c10e] = .ok s' ∧ s'.episodes = [c10e] ∧
      s'.currentEpisode = none ∧
      s'.episodeIterator = setupEpisodeIterator c8full.config.seed [c10e] ∧
      s'.episodeForceChanged = true ∧ s'.episodeFromIterOnReset = true ∧
      ∀ (a : Bool) (now : ℚ), ∃ err, Env.step s' a now = .error err) :=
  ⟨(C10_episodes_setter c8full []).1 rfl,
   by decide, rfl,
   (C10_episodes_setter c8empty [c10e]).2.1 (by decide) rfl,
   rfl,
   (C10_episodes_setter c8full [c10e]).2.2 (by decide) rfl⟩
